import Mathlib

/-!
# terraform-provider-spotify: the self-refreshing transport and the playlist resource

A shallow embedding of `provider/main.go` (the `transport` type with `RoundTrip`,
`base` and `getToken`, and `providerConfigure`) and of `provider/resource_playlist.go` (the create, read and
delete callbacks of the playlist resource), followed by the properties proved about
them.

Conventions of the embedding.

* Go `error` values are the type `GoError`; a `nil` error is `none`.
* The network behind `t.base()` is an explicit state `σ`; a round trip takes the
  request and the state and returns the answer and the next state.  The clock read by
  `Token.Valid` is a function of that state, so time may pass during any exchange.
* Every request handed to the base transport is appended to a log (`World.calls`),
  tagged with the call site that sent it.
* A nil-pointer dereference is the outcome `Outcome.nilDeref`.
-/

namespace SpotifyProvider

/-! ## Go values -/

/-- Go error values.  `leaf msg status` is an error whose `Error()` text is `msg`; `status`
is the HTTP status when the value is an API error of the Spotify client.
`wrap pre inner` is what `fmt.Errorf(pre + "%w", inner)` builds. -/
inductive GoError where
  | leaf (msg : String) (status : Option Nat)
  | wrap (pre : String) (inner : GoError)
deriving DecidableEq, Repr

/-- The `Error()` method. -/
def GoError.Error : GoError → String
  | .leaf msg _ => msg
  | .wrap pre inner => pre ++ inner.Error

/-- The `Unwrap()` method: the error wrapped with `%w`, if any. -/
def GoError.Unwrap : GoError → Option GoError
  | .leaf _ _ => none
  | .wrap _ inner => some inner

/-- Go `errors.New(msg)`. -/
def errorsNew (msg : String) : GoError := .leaf msg none

/-- Go `fmt.Errorf("%s", s)`: an error whose text is exactly `s`. -/
def errorfS (s : String) : GoError := .leaf s none

/-- Go `fmt.Errorf(pre + "%s", s)`: an error whose text is `pre` followed by `s`. -/
def errorfPreS (pre s : String) : GoError := .leaf (pre ++ s) none

/-- Go `fmt.Errorf(pre + "%w", err)`. -/
def errorfW (pre : String) (err : GoError) : GoError := .wrap pre err

/-- The result of running a piece of Go code: it returns a value, or it dereferences a nil
pointer. -/
inductive Outcome (α : Type) where
  | ret (a : α)
  | nilDeref
deriving DecidableEq, Repr

/-! ## Credentials -/

/-- The fields of `oauth2.Token` the provider uses.  `Expiry` is a point on the clock
`Env.timeNow` reads, in seconds; `0` is the zero `time.Time`, which `oauth2` reads as
"no expiry". -/
structure Token where
  AccessToken : String
  TokenType : String
  Expiry : Nat
deriving DecidableEq, Repr

/-- The record `&oauth2.Token{}`. -/
def Token.zero : Token := { AccessToken := "", TokenType := "", Expiry := 0 }

/-- The constant `defaultExpiryDelta` of `golang.org/x/oauth2` (`token.go`): how much
earlier than its expiry a token counts as expired, `10 * time.Second`. -/
def defaultExpiryDelta : Nat := 10

/-- The method `(*oauth2.Token).expired` of `golang.org/x/oauth2`:
`if t.Expiry.IsZero() { return false }` and then
`t.Expiry.Round(0).Add(-expiryDelta).Before(timeNow())`, where `expiryDelta` is
`defaultExpiryDelta` for a token decoded from JSON. -/
def Token.expired (tok : Token) (now : Nat) : Bool :=
  if tok.Expiry == 0 then false
  else decide ((tok.Expiry : Int) - (defaultExpiryDelta : Int) < (now : Int))

/-- The method `(*oauth2.Token).Valid` of `golang.org/x/oauth2`, which `RoundTrip` (line
105) and `getToken` (line 147) call: `t != nil && t.AccessToken != "" && !t.expired()`. -/
def Token.Valid (c : Option Token) (now : Nat) : Bool :=
  match c with
  | none => false
  | some tok => tok.AccessToken != "" && !tok.expired now

/-! ## HTTP values -/

/-- An `http.Request`: method, URL, header and body. -/
structure Request where
  Method : String
  URL : String
  Header : List (String × String)
  Body : Option String
deriving DecidableEq, Repr

/-- An `http.Response`: the status code and what `ioutil.ReadAll(resp.Body)` yields. -/
structure Response where
  StatusCode : Nat
  Body : Except GoError String

/-- The method `http.Header.Set`: the value replaces whatever the key held. -/
def headerSet (h : List (String × String)) (key value : String) : List (String × String) :=
  h.filter (fun kv => kv.1 != key) ++ [(key, value)]

/-- The method `http.Header.Get`: the first value of the key. -/
def headerGet (h : List (String × String)) (key : String) : Option String :=
  (h.find? (fun kv => kv.1 == key)).map (fun kv => kv.2)

/-- What the base transport is: a round trip over the network state `σ`. -/
abbrev RoundTripper (σ : Type) := Request → σ → Except GoError Response × σ

/-- The library functions and ambient facilities `main.go` calls. -/
structure Env (σ : Type) where
  /-- The error `http.NewRequestWithContext` returns for a URL it rejects. -/
  newRequestErr : String → Option GoError
  /-- The base64 text `SetBasicAuth` derives from user name and password. -/
  basicAuth : String → String → String
  /-- The call `json.Unmarshal(body, tok)`: the record after decoding, and the error. -/
  jsonUnmarshal : String → Token → Token × Option GoError
  /-- The method `oauth2.Token.Type`: the header scheme a token type stands for. -/
  tokenScheme : String → String
  /-- The value `http.DefaultTransport`. -/
  DefaultTransport : RoundTripper σ
  /-- The clock, `time.Now()`. -/
  timeNow : σ → Nat

/-- Modelled from the spec: `(*oauth2.Token).SetAuthHeader`, a method of the oauth2
library.  Section 4.3 step 2: the credential is attached as an authorization header of
the scheme implied by its token type. -/
def Token.SetAuthHeader {σ : Type} (env : Env σ) (tok : Token) (req : Request) : Request :=
  let value := env.tokenScheme tok.TokenType ++ " " ++ tok.AccessToken
  { req with Header := headerSet req.Header "Authorization" value }

/-- The method `(*http.Request).SetBasicAuth`. -/
def Request.SetBasicAuth {σ : Type} (env : Env σ) (req : Request) (username password : String) :
    Request :=
  let value := "Basic " ++ env.basicAuth username password
  { req with Header := headerSet req.Header "Authorization" value }

/-- The call `http.NewRequestWithContext(ctx, method, url, nil)`. -/
def newRequest {σ : Type} (env : Env σ) (method url : String) : Except GoError Request :=
  match env.newRequestErr url with
  | some err => .error err
  | none => .ok { Method := method, URL := url, Header := [], Body := none }

/-! ## The transport (`main.go`) -/

/-- The struct `transport`. -/
structure transport (σ : Type) where
  Endpoint : String
  Username : String
  APIKey : String
  Base : Option (RoundTripper σ)
  token : Option Token

/-- Which call site handed a request to the base transport. -/
inductive Sent where
  /-- The request `getToken` sends to the issuance endpoint. -/
  | issuance (req : Request)
  /-- The request `RoundTrip` forwards. -/
  | original (req : Request)
deriving DecidableEq, Repr

/-- The network state together with the log of requests handed to the base transport,
oldest first. -/
structure World (σ : Type) where
  net : σ
  calls : List Sent

/-- The method `transport.base`. -/
def transport.base {σ : Type} (env : Env σ) (t : transport σ) : RoundTripper σ :=
  match t.Base with
  | some b => b
  | none => env.DefaultTransport

/-- The method `transport.getToken`: the returned error, the transport and the world after
the call. -/
def transport.getToken {σ : Type} (env : Env σ) (t : transport σ) (w : World σ) :
    Option GoError × transport σ × World σ :=
  match newRequest env "POST" t.Endpoint with
  | .error err => (some err, t, w)
  | .ok req0 =>
    let req := req0.SetBasicAuth env t.Username t.APIKey
    let r := t.base env req w.net
    let w1 : World σ := { net := r.2, calls := w.calls ++ [Sent.issuance req] }
    match r.1 with
    | .error err => (some err, t, w1)
    | .ok resp =>
      match resp.Body with
      | .error err => (some err, t, w1)
      | .ok body =>
        if resp.StatusCode ≠ 200 then
          (some (errorfS body), t, w1)
        else
          let u := env.jsonUnmarshal body Token.zero
          let t1 : transport σ := { t with token := some u.1 }
          match u.2 with
          | some err => (some err, t1, w1)
          | none =>
            if !Token.Valid t1.token (env.timeNow w1.net) then
              (some (errorsNew "could not get a valid token"), t1, w1)
            else
              (none, t1, w1)

/-- The tail of `RoundTrip`, lines 111 to 113: attach the header and forward. -/
def transport.forward {σ : Type} (env : Env σ) (t : transport σ) (req : Request)
    (w : World σ) : Outcome (Except GoError Response) × transport σ × World σ :=
  match t.token with
  | none => (.nilDeref, t, w)
  | some tok =>
    let req1 := tok.SetAuthHeader env req
    let r := t.base env req1 w.net
    (.ret r.1, t, { net := r.2, calls := w.calls ++ [Sent.original req1] })

/-- The method `transport.RoundTrip`. -/
def transport.RoundTrip {σ : Type} (env : Env σ) (t : transport σ) (req : Request)
    (w : World σ) : Outcome (Except GoError Response) × transport σ × World σ :=
  if !Token.Valid t.token (env.timeNow w.net) then
    match t.getToken env w with
    | (some err, t1, w1) => (.ret (.error err), t1, w1)
    | (none, t1, w1) => t1.forward env req w1
  else
    t.forward env req w

/-- The request `getToken` builds for the issuance endpoint (lines 124 to 128), when
`http.NewRequestWithContext` accepts the endpoint. -/
def transport.issuanceRequest {σ : Type} (env : Env σ) (t : transport σ) : Request :=
  Request.SetBasicAuth env { Method := "POST", URL := t.Endpoint, Header := [], Body := none }
    t.Username t.APIKey

/-- The requests of a log that `RoundTrip` forwarded, oldest first. -/
def originalsSent : List Sent → List Request
  | [] => []
  | Sent.original req :: rest => req :: originalsSent rest
  | Sent.issuance _ :: rest => originalsSent rest

/-- The requests of a log that `getToken` sent to the issuance endpoint, oldest first. -/
def issuancesSent : List Sent → List Request
  | [] => []
  | Sent.issuance req :: rest => req :: issuancesSent rest
  | Sent.original _ :: rest => issuancesSent rest

/-- One later use of the transport: the network and the clock move on, then `RoundTrip` is
called with a request. -/
structure Step (σ : Type) where
  advance : σ → σ
  req : Request

/-- What one `RoundTrip` call of a sequence did: the clock when it began, whether the held
credential passed the validity check then, and how many issuance exchanges it performed. -/
structure Obs where
  now : Nat
  heldValid : Bool
  issued : Nat
deriving DecidableEq, Repr

/-- A sequence of `RoundTrip` calls on one transport, with what each call did. -/
def runCalls {σ : Type} (env : Env σ) : List (Step σ) → transport σ → World σ →
    List Obs × transport σ × World σ
  | [], t, w => ([], t, w)
  | s :: rest, t, w =>
    let w0 : World σ := { net := s.advance w.net, calls := w.calls }
    let r := t.RoundTrip env s.req w0
    let o : Obs :=
      { now := env.timeNow w0.net
        heldValid := Token.Valid t.token (env.timeNow w0.net)
        issued := (issuancesSent r.2.2.calls).length - (issuancesSent w0.calls).length }
    let tail := runCalls env rest r.2.1 r.2.2
    (o :: tail.1, tail.2)

/-! ## The playlist resource (`resource_playlist.go`) -/

/-- The fields of `spotify.FullTrack` the provider reads. -/
structure FullTrack where
  ID : String
  Name : String
deriving DecidableEq, Repr

/-- The type `spotify.FullTrackPage`. -/
structure FullTrackPage where
  Tracks : List FullTrack
deriving DecidableEq, Repr

/-- The fields of `spotify.PrivateUser` the provider reads. -/
structure PrivateUser where
  ID : String
deriving DecidableEq, Repr

/-- The fields of `spotify.FullPlaylist` the provider reads. -/
structure FullPlaylist where
  ID : String
  Name : String
  Description : String
  IsPublic : Bool
deriving DecidableEq, Repr

/-- The methods of `*spotify.Client` the resource calls, over the remote state `ρ`.  The
request options `spotify.Limit(n)` and `spotify.Timerange(r)` are the first two arguments of
`CurrentUsersTopTracks`. -/
structure Client (ρ : Type) where
  CurrentUsersTopTracks : Int → String → ρ → Except GoError FullTrackPage × ρ
  CurrentUser : ρ → Except GoError PrivateUser × ρ
  CreatePlaylistForUser : String → String → String → Bool → Bool → ρ →
    Except GoError FullPlaylist × ρ
  AddTracksToPlaylist : String → List String → ρ → Except GoError String × ρ
  GetPlaylist : String → ρ → Except GoError FullPlaylist × ρ
  UnfollowPlaylist : String → ρ → Option GoError × ρ

/-- One call on the Spotify client, with its arguments. -/
inductive ApiCall where
  | topTracks (limit : Int) (timeRange : String)
  | currentUser
  | createPlaylist (userID name description : String) (isPublic collaborative : Bool)
  | addTracks (playlistID : String) (trackIDs : List String)
  | getPlaylist (playlistID : String)
  | unfollowPlaylist (playlistID : String)
deriving DecidableEq, Repr

/-- The remote state together with the log of client calls, oldest first. -/
structure Remote (ρ : Type) where
  state : ρ
  calls : List ApiCall

/-- The call `client.CurrentUsersTopTracks(ctx, spotify.Limit(n), spotify.Timerange(r))`. -/
def Client.topTracks {ρ : Type} (c : Client ρ) (limit : Int) (timeRange : String)
    (r : Remote ρ) : Except GoError FullTrackPage × Remote ρ :=
  let a := c.CurrentUsersTopTracks limit timeRange r.state
  (a.1, { state := a.2, calls := r.calls ++ [ApiCall.topTracks limit timeRange] })

/-- The call `client.CurrentUser(ctx)`. -/
def Client.currentUser {ρ : Type} (c : Client ρ) (r : Remote ρ) :
    Except GoError PrivateUser × Remote ρ :=
  let a := c.CurrentUser r.state
  (a.1, { state := a.2, calls := r.calls ++ [ApiCall.currentUser] })

/-- The call `client.CreatePlaylistForUser(ctx, userID, name, description, public, collaborative)`. -/
def Client.createPlaylist {ρ : Type} (c : Client ρ) (userID name description : String)
    (isPublic collaborative : Bool) (r : Remote ρ) : Except GoError FullPlaylist × Remote ρ :=
  let a := c.CreatePlaylistForUser userID name description isPublic collaborative r.state
  (a.1, { state := a.2,
          calls := r.calls ++ [ApiCall.createPlaylist userID name description isPublic collaborative] })

/-- The call `client.AddTracksToPlaylist(ctx, playlistID, trackIDs...)`. -/
def Client.addTracks {ρ : Type} (c : Client ρ) (playlistID : String) (trackIDs : List String)
    (r : Remote ρ) : Except GoError String × Remote ρ :=
  let a := c.AddTracksToPlaylist playlistID trackIDs r.state
  (a.1, { state := a.2, calls := r.calls ++ [ApiCall.addTracks playlistID trackIDs] })

/-- The call `client.GetPlaylist(ctx, playlistID)`. -/
def Client.getPlaylist {ρ : Type} (c : Client ρ) (playlistID : String) (r : Remote ρ) :
    Except GoError FullPlaylist × Remote ρ :=
  let a := c.GetPlaylist playlistID r.state
  (a.1, { state := a.2, calls := r.calls ++ [ApiCall.getPlaylist playlistID] })

/-- The call `client.UnfollowPlaylist(ctx, playlistID)`. -/
def Client.unfollowPlaylist {ρ : Type} (c : Client ρ) (playlistID : String) (r : Remote ρ) :
    Option GoError × Remote ρ :=
  let a := c.UnfollowPlaylist playlistID r.state
  (a.1, { state := a.2, calls := r.calls ++ [ApiCall.unfollowPlaylist playlistID] })

/-- The type `schema.ResourceData` of the playlist resource: the five schema fields and the
resource ID (`d.Id()`, `d.SetId`). -/
structure ResourceData where
  name : String
  description : String
  isPublic : Bool
  time_range : String
  track_count : Int
  Id : String
deriving DecidableEq, Repr

/-- The severity of a diagnostic. -/
inductive Severity where
  | Error
  | Warning
deriving DecidableEq, Repr

/-- The type `diag.Diagnostic`. -/
structure Diagnostic where
  Severity : Severity
  Summary : String
  Detail : String
deriving DecidableEq, Repr

/-- The type `diag.Diagnostics`; `nil` is the empty list. -/
abbrev Diagnostics := List Diagnostic

/-- The function `diag.FromErr` of the plugin SDK: one error diagnostic whose summary is
the error text. -/
def diagFromErr (err : GoError) : Diagnostics :=
  [{ Severity := Severity.Error, Summary := err.Error, Detail := "" }]

/-- Whether the diagnostics report an error (`diags.HasError()`). -/
def Diagnostics.HasError (ds : Diagnostics) : Bool :=
  ds.any (fun x => x.Severity == Severity.Error)

/-- The map literal `validTimeRanges` of `resourceSpotifyPlaylistCreate`. -/
def validTimeRanges : List (String × Bool) :=
  [("short_term", true), ("medium_term", true), ("long_term", true)]

/-- Indexing a Go `map[string]bool`: a missing key reads as `false`. -/
def mapIndex (m : List (String × Bool)) (key : String) : Bool :=
  (m.lookup key).getD false

/-- The `switch timeRange` of `resourceSpotifyPlaylistCreate`: the values of `topTracks` and
`err` after it, both nil when no case matches. -/
def switchTimeRange {ρ : Type} (client : Client ρ) (timeRange : String) (trackCount : Int)
    (r : Remote ρ) : Option FullTrackPage × Option GoError × Remote ρ :=
  let assign (a : Except GoError FullTrackPage × Remote ρ) :
      Option FullTrackPage × Option GoError × Remote ρ :=
    match a with
    | (.ok page, r1) => (some page, none, r1)
    | (.error err, r1) => (none, some err, r1)
  if timeRange == "short_term" then
    assign (client.topTracks trackCount "short_term" r)
  else if timeRange == "medium_term" then
    assign (client.topTracks trackCount "medium_term" r)
  else if timeRange == "long_term" then
    assign (client.topTracks trackCount "long_term" r)
  else
    (none, none, r)

/-- The function `resourceSpotifyPlaylistCreate`: the returned diagnostics, the resource data
and the remote after the call. -/
def resourceSpotifyPlaylistCreate {ρ : Type} (client : Client ρ) (d : ResourceData)
    (r : Remote ρ) : Outcome Diagnostics × ResourceData × Remote ρ :=
  let playlistName := d.name
  let playlistDescription := d.description
  let isPublic := d.isPublic
  let timeRange := d.time_range
  let trackCount := d.track_count
  if !mapIndex validTimeRanges timeRange then
    (.ret (diagFromErr (errorfPreS "invalid time range: " timeRange)), d, r)
  else
    match switchTimeRange client timeRange trackCount r with
    | (_, some err, r1) =>
      (.ret (diagFromErr (errorfW "failed to fetch top tracks: " err)), d, r1)
    | (none, none, r1) => (.nilDeref, d, r1)
    | (some topTracks, none, r1) =>
      let trackIDs := topTracks.Tracks.map (fun track => track.ID)
      match client.currentUser r1 with
      | (.error err, r2) =>
        (.ret (diagFromErr (errorfW "failed to fetch current user: " err)), d, r2)
      | (.ok user, r2) =>
        match client.createPlaylist user.ID playlistName playlistDescription isPublic false r2 with
        | (.error err, r3) =>
          (.ret (diagFromErr (errorfW "failed to create playlist: " err)), d, r3)
        | (.ok playlist, r3) =>
          match client.addTracks playlist.ID trackIDs r3 with
          | (.error err, r4) =>
            (.ret (diagFromErr (errorfW "failed to add tracks to playlist: " err)), d, r4)
          | (.ok _, r4) =>
            (.ret [], { d with Id := playlist.ID }, r4)

/-- The function `resourceSpotifyPlaylistRead`. -/
def resourceSpotifyPlaylistRead {ρ : Type} (client : Client ρ) (d : ResourceData)
    (r : Remote ρ) : Diagnostics × ResourceData × Remote ρ :=
  let playlistID := d.Id
  match client.getPlaylist playlistID r with
  | (.error err, r1) => (diagFromErr (errorfW "failed to fetch playlist: " err), d, r1)
  | (.ok playlist, r1) =>
    ([], { d with name := playlist.Name, description := playlist.Description,
                  isPublic := playlist.IsPublic }, r1)

/-- The function `resourceSpotifyPlaylistDelete`. -/
def resourceSpotifyPlaylistDelete {ρ : Type} (client : Client ρ) (d : ResourceData)
    (r : Remote ρ) : Diagnostics × ResourceData × Remote ρ :=
  let playlistID := d.Id
  match client.unfollowPlaylist playlistID r with
  | (some err, r1) => (diagFromErr (errorfW "failed to delete playlist: " err), d, r1)
  | (none, r1) => ([], { d with Id := "" }, r1)


/-- The function `providerConfigure`, lines 80 to 93: the transport is built without a
credential, `getToken` is called once, and the transport is handed to the Spotify client
only when that call succeeds.  The endpoint string computed in lines 73 to 78 is the
parameter `endpoint`. -/
def providerConfigure {σ : Type} (env : Env σ) (endpoint username apiKey : String)
    (w : World σ) : Except Diagnostics (transport σ) × World σ :=
  let t : transport σ :=
    { Endpoint := endpoint, Username := username, APIKey := apiKey, Base := none,
      token := none }
  match t.getToken env w with
  | (some err, _, w1) => (.error (diagFromErr err), w1)
  | (none, t1, w1) => (.ok t1, w1)

/-! ## Concrete scenarios

A network whose state is the clock alone: every exchange takes one tick.  The issuance
endpoint answers with a fixed status and body, any other URL answers 401. -/

/-- The endpoint `providerConfigure` derives from the default `auth_server` and `token_id`. -/
def scenarioEndpoint : String := "http://localhost:27228/api/v1/token/terraform"

/-- A credential that expires at time 1000. -/
def freshToken : Token := { AccessToken := "abc", TokenType := "Bearer", Expiry := 1000 }

/-- A credential that expired at time 100. -/
def oldToken : Token := { AccessToken := "old", TokenType := "Bearer", Expiry := 100 }

/-- A credential that expires at time 150. -/
def staleToken : Token := { AccessToken := "xyz", TokenType := "Bearer", Expiry := 150 }

/-- A decoder that knows three bodies: `fresh` decodes to `freshToken`, `stale` to
`staleToken`, and `mistyped` is a body whose access token and expiry are those of
`freshToken` but whose token type is a number, for which `json.Unmarshal` fills the other
fields and returns a type error; any other body is a syntax error and leaves the record as
it was. -/
def scenarioUnmarshal (body : String) (tok : Token) : Token × Option GoError :=
  if body == "fresh" then (freshToken, none)
  else if body == "stale" then (staleToken, none)
  else if body == "mistyped" then
    ({ tok with AccessToken := "abc", Expiry := 1000 },
      some (errorsNew "json: cannot unmarshal number into Go struct field of type string"))
  else (tok, some (errorsNew "invalid character"))

/-- The network of the scenarios. -/
def scenarioNet (status : Nat) (body : String) : RoundTripper Nat :=
  fun req now =>
    if req.URL == scenarioEndpoint then
      (.ok { StatusCode := status, Body := .ok body }, now + 1)
    else
      (.ok { StatusCode := 401, Body := .ok "unauthorized" }, now + 1)

/-- The environment of the scenarios: the issuer answers `status` and `body`. -/
def scenarioEnv (status : Nat) (body : String) : Env Nat :=
  { newRequestErr := fun _ => none
    basicAuth := fun u p => u ++ ":" ++ p
    jsonUnmarshal := scenarioUnmarshal
    tokenScheme := fun ty => if ty == "" then "Bearer" else ty
    DefaultTransport := scenarioNet status body
    timeNow := fun now => now }

/-- The transport `providerConfigure` builds, holding the given credential. -/
def scenarioTransport (token : Option Token) : transport Nat :=
  { Endpoint := scenarioEndpoint, Username := "SpotifyAuthProxy", APIKey := "key",
    Base := none, token := token }

/-- A request of the Spotify client. -/
def scenarioRequest : Request :=
  { Method := "GET", URL := "https://api.spotify.com/v1/me", Header := [], Body := none }

/-- The request `scenarioRequest` after `SetAuthHeader` with `freshToken`. -/
def scenarioAuthed : Request :=
  { Method := "GET", URL := "https://api.spotify.com/v1/me",
    Header := [("Authorization", "Bearer abc")], Body := none }

/-- Three later calls: at once, five ticks later, and at time 2000. -/
def scenarioSteps : List (Step Nat) :=
  [{ advance := fun now => now, req := scenarioRequest },
   { advance := fun now => now + 5, req := scenarioRequest },
   { advance := fun _ => 2000, req := scenarioRequest }]

/-- One later call, at time 995: five seconds before the expiry of `freshToken`. -/
def scenarioLate : List (Step Nat) :=
  [{ advance := fun _ => 995, req := scenarioRequest }]

/-- A credential without expiry: its `Expiry` is the zero time. -/
def unboundedToken : Token := { AccessToken := "abc", TokenType := "Bearer", Expiry := 0 }

/-- Twenty tracks, `t1` to `t20`, in the order the remote returns them. -/
def scenarioTracks : List FullTrack :=
  [⟨"t1", "a"⟩, ⟨"t2", "b"⟩, ⟨"t3", "c"⟩, ⟨"t4", "d"⟩, ⟨"t5", "e"⟩,
   ⟨"t6", "f"⟩, ⟨"t7", "g"⟩, ⟨"t8", "h"⟩, ⟨"t9", "i"⟩, ⟨"t10", "j"⟩,
   ⟨"t11", "k"⟩, ⟨"t12", "l"⟩, ⟨"t13", "m"⟩, ⟨"t14", "n"⟩, ⟨"t15", "o"⟩,
   ⟨"t16", "p"⟩, ⟨"t17", "q"⟩, ⟨"t18", "r"⟩, ⟨"t19", "s"⟩, ⟨"t20", "t"⟩]

/-- The identifiers of `scenarioTracks`. -/
def scenarioTrackIDs : List String :=
  ["t1", "t2", "t3", "t4", "t5", "t6", "t7", "t8", "t9", "t10",
   "t11", "t12", "t13", "t14", "t15", "t16", "t17", "t18", "t19", "t20"]

/-- The error the Spotify client returns for an HTTP 404 answer. -/
def notFound : GoError := .leaf "Not found." (some 404)

/-- The error the Spotify client returns for an HTTP 500 answer. -/
def serverError : GoError := .leaf "Internal server error" (some 500)

/-- A remote without state: the top tracks are `scenarioTracks`, the user is `u1`, the
created playlist is `p1`.  The calls listed in `failing` answer `serverError`; fetching a
playlist answers `notFound` unless the playlist is `p1`. -/
def scenarioClient (failing : List String) : Client Unit :=
  { CurrentUsersTopTracks := fun _ _ _ =>
      if failing.contains "top-tracks" then (.error serverError, ())
      else (.ok { Tracks := scenarioTracks }, ())
    CurrentUser := fun _ =>
      if failing.contains "current-user" then (.error serverError, ())
      else (.ok { ID := "u1" }, ())
    CreatePlaylistForUser := fun _ name description isPublic _ _ =>
      if failing.contains "create-playlist" then (.error serverError, ())
      else (.ok { ID := "p1", Name := name, Description := description, IsPublic := isPublic }, ())
    AddTracksToPlaylist := fun _ _ _ =>
      if failing.contains "add-tracks" then (.error serverError, ())
      else (.ok "snapshot", ())
    GetPlaylist := fun playlistID _ =>
      if playlistID == "p1" then
        (.ok { ID := "p1", Name := "Top20", Description := "", IsPublic := true }, ())
      else (.error notFound, ())
    UnfollowPlaylist := fun _ _ =>
      if failing.contains "unfollow" then (some serverError, ()) else (none, ()) }

/-- The desired state of the end-to-end scenario, identity unset. -/
def scenarioDesired : ResourceData :=
  { name := "Top20", description := "", isPublic := true, time_range := "short_term",
    track_count := 20, Id := "" }

/-- A remote on which nothing has been called yet. -/
def scenarioRemote : Remote Unit := { state := (), calls := [] }

/-! ## Properties of the validity check -/

/-- The validity check in terms of the credential's fields: a non-empty access value and
either no expiry or a clock at least `defaultExpiryDelta` before the expiry. -/
theorem Token.Valid_some (tok : Token) (now : Nat) :
    Token.Valid (some tok) now = true ↔
      tok.AccessToken ≠ "" ∧ (tok.Expiry = 0 ∨ now + 10 ≤ tok.Expiry) := by
  by_cases h0 : tok.Expiry = 0
  · simp [Token.Valid, Token.expired, h0]
  · simp only [Token.Valid, Token.expired, defaultExpiryDelta, beq_iff_eq, h0, if_false,
      Bool.and_eq_true, bne_iff_ne, ne_eq, Bool.not_eq_true', decide_eq_false_iff_not,
      false_or]
    constructor
    · rintro ⟨ha, hlt⟩
      exact ⟨ha, by omega⟩
    · rintro ⟨ha, hle⟩
      exact ⟨ha, by omega⟩

/-- C1 fails on the code: at time 995 the credential `freshToken`, non-empty and expiring at
1000, is not valid although 995 is strictly before its expiry; and at time 5 the credential
`unboundedToken`, whose expiry is the zero time, is valid although 5 is not before its
expiry.  The equivalence of the claim is false at the first input. -/
theorem Token.Valid_differs_from_strict_expiry :
    (Token.Valid (some freshToken) 995 = false ∧
      freshToken.AccessToken ≠ "" ∧ 995 < freshToken.Expiry) ∧
    (Token.Valid (some unboundedToken) 5 = true ∧ unboundedToken.Expiry ≤ 5) ∧
    ¬ (Token.Valid (some freshToken) 995 = true ↔
        ∃ tok, some freshToken = some tok ∧ tok.AccessToken ≠ "" ∧ 995 < tok.Expiry) := by
  refine ⟨by decide, by decide, ?_⟩
  intro h
  have hv : Token.Valid (some freshToken) 995 = true :=
    h.2 ⟨freshToken, rfl, by decide, by decide⟩
  revert hv
  decide

/-- C1 as amended: the validity check used by `RoundTrip` and `getToken` is true exactly when
the credential is non-nil, its access value is non-empty, and either its expiry is the zero
time or `now` is at least ten seconds before its expiry; for a credential with a set
expiry it is false at the expiry and at every later time. -/
theorem Token.Valid_iff_nonempty_and_not_expired (c : Option Token) (now : Nat) :
    (Token.Valid c now = true ↔
      ∃ tok, c = some tok ∧ tok.AccessToken ≠ "" ∧
        (tok.Expiry = 0 ∨ now + 10 ≤ tok.Expiry)) ∧
    (∀ (access type : String) (e k : Nat),
      Token.Valid (some { AccessToken := access, TokenType := type, Expiry := e + 1 })
        (e + 1 + k) = false) := by
  constructor
  · cases c with
    | none => simp [Token.Valid]
    | some tok =>
      rw [Token.Valid_some]
      constructor
      · intro h
        exact ⟨tok, rfl, h⟩
      · rintro ⟨tok1, h1, h2⟩
        cases h1
        exact h2
  · intro access type e k
    cases hv : Token.Valid (some { AccessToken := access, TokenType := type, Expiry := e + 1 })
        (e + 1 + k) with
    | false => rfl
    | true =>
      rcases (Token.Valid_some _ _).1 hv with ⟨-, h | h⟩
      · simp at h
      · simp at h
        omega

/-! ## Helper lemmas on headers and logs -/

/-- Reading a key back after `Set` yields the value just set. -/
theorem headerGet_headerSet (h : List (String × String)) (key value : String) :
    headerGet (headerSet h key value) key = some value := by
  unfold headerGet headerSet
  induction h with
  | nil => simp
  | cons kv rest ih =>
    by_cases hk : kv.1 = key
    · simp [List.filter_cons, hk]
    · simp [List.filter_cons, hk, List.find?_cons]

/-- The forwarded requests of a concatenated log. -/
theorem originalsSent_append (l₁ l₂ : List Sent) :
    originalsSent (l₁ ++ l₂) = originalsSent l₁ ++ originalsSent l₂ := by
  induction l₁ with
  | nil => rfl
  | cons a rest ih => cases a <;> simp [originalsSent, ih]

/-- The issuance requests of a concatenated log. -/
theorem issuancesSent_append (l₁ l₂ : List Sent) :
    issuancesSent (l₁ ++ l₂) = issuancesSent l₁ ++ issuancesSent l₂ := by
  induction l₁ with
  | nil => rfl
  | cons a rest ih => cases a <;> simp [issuancesSent, ih]

/-! ## Properties of `getToken` -/

/-- The paths through `getToken`, one disjunct per `return`. -/
theorem getToken_cases {σ : Type} (env : Env σ) (t : transport σ) (w : World σ) :
    (∃ err, env.newRequestErr t.Endpoint = some err ∧ t.getToken env w = (some err, t, w)) ∨
    (env.newRequestErr t.Endpoint = none ∧
      ∃ w1 : World σ,
        w1 = { net := (t.base env (t.issuanceRequest env) w.net).2,
               calls := w.calls ++ [Sent.issuance (t.issuanceRequest env)] } ∧
        ((∃ err, (t.base env (t.issuanceRequest env) w.net).1 = .error err ∧
            t.getToken env w = (some err, t, w1)) ∨
         (∃ resp, (t.base env (t.issuanceRequest env) w.net).1 = .ok resp ∧
            ((∃ err, resp.Body = .error err ∧ t.getToken env w = (some err, t, w1)) ∨
             (∃ body, resp.Body = .ok body ∧
                ((resp.StatusCode ≠ 200 ∧ t.getToken env w = (some (errorfS body), t, w1)) ∨
                 (resp.StatusCode = 200 ∧
                    ∃ tok, tok = (env.jsonUnmarshal body Token.zero).1 ∧
                      ((∃ err, (env.jsonUnmarshal body Token.zero).2 = some err ∧
                          t.getToken env w = (some err, { t with token := some tok }, w1)) ∨
                       ((env.jsonUnmarshal body Token.zero).2 = none ∧
                          Token.Valid (some tok) (env.timeNow w1.net) = false ∧
                          t.getToken env w =
                            (some (errorsNew "could not get a valid token"),
                              { t with token := some tok }, w1)) ∨
                       ((env.jsonUnmarshal body Token.zero).2 = none ∧
                          Token.Valid (some tok) (env.timeNow w1.net) = true ∧
                          t.getToken env w = (none, { t with token := some tok }, w1)))))))))) := by
  cases hE : env.newRequestErr t.Endpoint with
  | some err =>
    left
    exact ⟨err, rfl, by simp [transport.getToken, newRequest, hE]⟩
  | none =>
    right
    refine ⟨rfl, _, rfl, ?_⟩
    have hreq : t.issuanceRequest env = Request.SetBasicAuth env
        { Method := "POST", URL := t.Endpoint, Header := [], Body := none }
        t.Username t.APIKey := rfl
    cases hr : (t.base env (t.issuanceRequest env) w.net).1 with
    | error err =>
      left
      rw [hreq] at hr
      exact ⟨err, rfl, by simp [transport.getToken, newRequest, hE, hr, hreq]⟩
    | ok resp =>
      right
      refine ⟨resp, rfl, ?_⟩
      rw [hreq] at hr
      cases hb : resp.Body with
      | error err =>
        left
        exact ⟨err, rfl, by simp [transport.getToken, newRequest, hE, hr, hb, hreq]⟩
      | ok body =>
        right
        refine ⟨body, rfl, ?_⟩
        by_cases hs : resp.StatusCode = 200
        · right
          refine ⟨hs, _, rfl, ?_⟩
          cases hu : (env.jsonUnmarshal body Token.zero).2 with
          | some err =>
            left
            exact ⟨err, rfl, by simp [transport.getToken, newRequest, hE, hr, hb, hs, hu, hreq]⟩
          | none =>
            right
            cases hv : Token.Valid (some (env.jsonUnmarshal body Token.zero).1)
                (env.timeNow (t.base env (t.issuanceRequest env) w.net).2) with
            | false =>
              left
              refine ⟨rfl, rfl, ?_⟩
              rw [hreq] at hv
              simp [transport.getToken, newRequest, hE, hr, hb, hs, hu, hv, hreq]
            | true =>
              right
              refine ⟨rfl, rfl, ?_⟩
              rw [hreq] at hv
              simp [transport.getToken, newRequest, hE, hr, hb, hs, hu, hv, hreq]
        · left
          exact ⟨hs, by simp [transport.getToken, newRequest, hE, hr, hb, hs, hreq]⟩

/-- The configuration fields of the transport are not touched by `getToken`. -/
theorem getToken_config {σ : Type} (env : Env σ) (t : transport σ) (w : World σ) :
    (t.getToken env w).2.1.Endpoint = t.Endpoint ∧
    (t.getToken env w).2.1.Username = t.Username ∧
    (t.getToken env w).2.1.APIKey = t.APIKey ∧
    (t.getToken env w).2.1.Base = t.Base := by
  rcases getToken_cases env t w with ⟨err, -, h⟩ | ⟨-, w1, -, h⟩
  · simp [h]
  · rcases h with ⟨err, -, h⟩ | ⟨resp, -, ⟨err, -, h⟩ | ⟨body, -, ⟨-, h⟩ | ⟨-, tok, -, h⟩⟩⟩
    · simp [h]
    · simp [h]
    · simp [h]
    · rcases h with ⟨err, -, h⟩ | ⟨-, -, h⟩ | ⟨-, -, h⟩ <;> simp [h]

/-- The log after `getToken`: the issuance request is appended when the endpoint is
accepted, nothing otherwise. -/
theorem getToken_calls {σ : Type} (env : Env σ) (t : transport σ) (w : World σ) :
    (env.newRequestErr t.Endpoint = none →
      (t.getToken env w).2.2.calls = w.calls ++ [Sent.issuance (t.issuanceRequest env)]) ∧
    (env.newRequestErr t.Endpoint ≠ none → (t.getToken env w).2.2.calls = w.calls) := by
  rcases getToken_cases env t w with ⟨err, hE, h⟩ | ⟨hE, w1, hw, h⟩
  · simp [h, hE]
  · refine ⟨fun _ => ?_, fun hne => absurd hE hne⟩
    rcases h with ⟨err, -, h⟩ | ⟨resp, -, ⟨err, -, h⟩ | ⟨body, -, ⟨-, h⟩ | ⟨-, tok, -, h⟩⟩⟩
    · simp [h, hw]
    · simp [h, hw]
    · simp [h, hw]
    · rcases h with ⟨err, -, h⟩ | ⟨-, -, h⟩ | ⟨-, -, h⟩ <;> simp [h, hw]

/-- When `getToken` reports no error, the endpoint was accepted, one issuance request went
to the base transport, and the transport holds a credential that passed the validity check
on the clock after the exchange. -/
theorem getToken_success {σ : Type} (env : Env σ) (t : transport σ) (w : World σ)
    (h : (t.getToken env w).1 = none) :
    env.newRequestErr t.Endpoint = none ∧
    ∃ (tok : Token) (w1 : World σ),
      t.getToken env w = (none, { t with token := some tok }, w1) ∧
      Token.Valid (some tok) (env.timeNow w1.net) = true ∧
      w1.calls = w.calls ++ [Sent.issuance (t.issuanceRequest env)] := by
  rcases getToken_cases env t w with ⟨err, hE, h1⟩ | ⟨hE, w1, hw, h1⟩
  · simp [h1] at h
  · refine ⟨hE, ?_⟩
    rcases h1 with ⟨err, -, h1⟩ | ⟨resp, -, ⟨err, -, h1⟩ | ⟨body, -, ⟨-, h1⟩ | ⟨-, tok, -, h1⟩⟩⟩
    · simp [h1] at h
    · simp [h1] at h
    · simp [h1] at h
    · rcases h1 with ⟨err, -, h1⟩ | ⟨-, -, h1⟩ | ⟨-, hv, h1⟩
      · simp [h1] at h
      · simp [h1] at h
      · exact ⟨tok, w1, h1, hv, by simp [hw]⟩

/-! ## Properties of `RoundTrip` -/

/-- With a valid held credential `RoundTrip` goes straight to lines 111 to 113. -/
theorem RoundTrip_of_valid {σ : Type} (env : Env σ) (t : transport σ) (req : Request)
    (w : World σ) (hv : Token.Valid t.token (env.timeNow w.net) = true) :
    ∃ tok, t.token = some tok ∧
      t.RoundTrip env req w =
        (.ret (t.base env (tok.SetAuthHeader env req) w.net).1, t,
          { net := (t.base env (tok.SetAuthHeader env req) w.net).2,
            calls := w.calls ++ [Sent.original (tok.SetAuthHeader env req)] }) := by
  cases ht : t.token with
  | none => simp [ht, Token.Valid] at hv
  | some tok =>
    refine ⟨tok, rfl, ?_⟩
    rw [ht] at hv
    simp [transport.RoundTrip, hv, transport.forward, ht]

/-- With an invalid held credential `RoundTrip` returns the error of `getToken`, if any,
without forwarding. -/
theorem RoundTrip_of_fetch_error {σ : Type} (env : Env σ) (t : transport σ) (req : Request)
    (w : World σ) (hv : Token.Valid t.token (env.timeNow w.net) = false) (err : GoError)
    (he : (t.getToken env w).1 = some err) :
    t.RoundTrip env req w = (.ret (.error err), (t.getToken env w).2.1, (t.getToken env w).2.2) := by
  unfold transport.RoundTrip
  simp only [hv, Bool.not_false, if_true]
  split
  · rename_i e t1 w1 hg
    simp [hg] at he
    simp [he, hg]
  · rename_i t1 w1 hg
    simp [hg] at he

/-- With an invalid held credential and a successful `getToken`, `RoundTrip` forwards the
request with the fetched credential. -/
theorem RoundTrip_of_fetch_ok {σ : Type} (env : Env σ) (t : transport σ) (req : Request)
    (w : World σ) (hv : Token.Valid t.token (env.timeNow w.net) = false) (tok : Token)
    (w1 : World σ) (hg : t.getToken env w = (none, { t with token := some tok }, w1)) :
    t.RoundTrip env req w =
      (.ret (t.base env (tok.SetAuthHeader env req) w1.net).1, { t with token := some tok },
        { net := (t.base env (tok.SetAuthHeader env req) w1.net).2,
          calls := w1.calls ++ [Sent.original (tok.SetAuthHeader env req)] }) := by
  simp [transport.RoundTrip, hv, hg, transport.forward, transport.base]

/-- C2: if `RoundTrip` hands the original request to the base transport, then (1) the
credential held at that moment passed the validity check during this call, either at
entry or inside `getToken` after a fresh fetch, (2) the forwarded request is the original
one with its Authorization header set to the scheme of the token type, a space and the
access value, (3) the base transport receives that request exactly once, as the last
exchange of the call, and (4) the result of `RoundTrip` is the answer of the base
transport, response or error, whatever its status. -/
theorem RoundTrip_delivers_authenticated_once {σ : Type} (env : Env σ) (t : transport σ)
    (req : Request) (w : World σ)
    (h : originalsSent (t.RoundTrip env req w).2.2.calls ≠ originalsSent w.calls) :
    ∃ (tok : Token) (w1 : World σ),
      (t.RoundTrip env req w).2.1.token = some tok ∧
      ((Token.Valid t.token (env.timeNow w.net) = true ∧ t.token = some tok ∧ w1 = w) ∨
       (Token.Valid t.token (env.timeNow w.net) = false ∧
          t.getToken env w = (none, { t with token := some tok }, w1) ∧
          Token.Valid (some tok) (env.timeNow w1.net) = true)) ∧
      headerGet (tok.SetAuthHeader env req).Header "Authorization" =
        some (env.tokenScheme tok.TokenType ++ " " ++ tok.AccessToken) ∧
      (tok.SetAuthHeader env req).Method = req.Method ∧
      (tok.SetAuthHeader env req).URL = req.URL ∧
      (tok.SetAuthHeader env req).Body = req.Body ∧
      (t.RoundTrip env req w).2.2.calls =
        w1.calls ++ [Sent.original (tok.SetAuthHeader env req)] ∧
      originalsSent (t.RoundTrip env req w).2.2.calls =
        originalsSent w.calls ++ [tok.SetAuthHeader env req] ∧
      (t.RoundTrip env req w).1 = .ret (t.base env (tok.SetAuthHeader env req) w1.net).1 ∧
      (t.RoundTrip env req w).2.2.net = (t.base env (tok.SetAuthHeader env req) w1.net).2 := by
  have hhdr : ∀ tok : Token, headerGet (tok.SetAuthHeader env req).Header "Authorization" =
      some (env.tokenScheme tok.TokenType ++ " " ++ tok.AccessToken) := by
    intro tok
    simp [Token.SetAuthHeader, headerGet_headerSet]
  cases hv : Token.Valid t.token (env.timeNow w.net) with
  | true =>
    obtain ⟨tok, ht, hrt⟩ := RoundTrip_of_valid env t req w hv
    refine ⟨tok, w, ?_, Or.inl ⟨rfl, ht, rfl⟩, hhdr tok, rfl, rfl, rfl, ?_, ?_, ?_, ?_⟩
    · rw [hrt]; exact ht
    · rw [hrt]
    · rw [hrt]; simp [originalsSent_append, originalsSent]
    · rw [hrt]
    · rw [hrt]
  | false =>
    cases hg : (t.getToken env w).1 with
    | some err =>
      have hrt := RoundTrip_of_fetch_error env t req w hv err hg
      exfalso
      apply h
      rw [hrt]
      rcases getToken_calls env t w with ⟨hc1, hc2⟩
      cases hE : env.newRequestErr t.Endpoint with
      | none => simp [hc1 hE, originalsSent_append, originalsSent]
      | some e => simp [hc2 (by simp [hE])]
    | none =>
      obtain ⟨-, tok, w1, hgt, hval, hcalls⟩ := getToken_success env t w hg
      have hrt := RoundTrip_of_fetch_ok env t req w hv tok w1 hgt
      refine ⟨tok, w1, ?_, Or.inr ⟨rfl, hgt, hval⟩, hhdr tok, rfl, rfl, rfl, ?_, ?_, ?_, ?_⟩
      · rw [hrt]
      · rw [hrt]
      · rw [hrt]; simp [hcalls, originalsSent_append, originalsSent]
      · rw [hrt]
      · rw [hrt]

/-- C3: when the held credential is invalid and the issuance exchange answers with a status
other than 200 and body text `b`, `RoundTrip` fails with the error of `getToken`, whose text
is exactly `b`; the only request sent is the issuance request, the original request is not
forwarded, and the held credential is as before. -/
theorem RoundTrip_issuance_rejected {σ : Type} (env : Env σ) (t : transport σ)
    (req : Request) (w : World σ) (resp : Response) (b : String)
    (hinv : Token.Valid t.token (env.timeNow w.net) = false)
    (hE : env.newRequestErr t.Endpoint = none)
    (hr : (t.base env (t.issuanceRequest env) w.net).1 = .ok resp)
    (hs : resp.StatusCode ≠ 200) (hb : resp.Body = .ok b) :
    ∃ err : GoError,
      (t.RoundTrip env req w).1 = .ret (.error err) ∧
      err.Error = b ∧
      (t.getToken env w).1 = some err ∧
      (t.RoundTrip env req w).2.2.calls = w.calls ++ [Sent.issuance (t.issuanceRequest env)] ∧
      originalsSent (t.RoundTrip env req w).2.2.calls = originalsSent w.calls ∧
      (t.RoundTrip env req w).2.1.token = t.token := by
  have hg : t.getToken env w = (some (errorfS b), t,
      { net := (t.base env (t.issuanceRequest env) w.net).2,
        calls := w.calls ++ [Sent.issuance (t.issuanceRequest env)] }) := by
    rcases getToken_cases env t w with ⟨err, hE1, -⟩ | ⟨-, w1, hw, h1⟩
    · simp [hE] at hE1
    · subst hw
      rcases h1 with ⟨err, hr1, -⟩ | ⟨resp1, hr1, h1⟩
      · simp [hr] at hr1
      · have : resp1 = resp := by
          rw [hr] at hr1
          injection hr1 with h'
          exact h'.symm
        subst this
        rcases h1 with ⟨err, hb1, -⟩ | ⟨body, hb1, ⟨-, h1⟩ | ⟨hs1, -⟩⟩
        · simp [hb] at hb1
        · rw [hb] at hb1
          injection hb1 with h'
          subst h'
          exact h1
        · exact absurd hs1 hs
  have hrt := RoundTrip_of_fetch_error env t req w hinv (errorfS b) (by rw [hg])
  rw [hg] at hrt
  refine ⟨errorfS b, ?_, rfl, ?_, ?_, ?_, ?_⟩
  · rw [hrt]
  · rw [hg]
  · rw [hrt]
  · rw [hrt]; simp [originalsSent_append, originalsSent]
  · rw [hrt]

/-- The code `RoundTrip` never dereferences a nil credential: a nil credential fails the
validity check, and a successful `getToken` leaves a credential behind. -/
theorem RoundTrip_returns {σ : Type} (env : Env σ) (t : transport σ) (req : Request)
    (w : World σ) : (t.RoundTrip env req w).1 ≠ Outcome.nilDeref := by
  cases hv : Token.Valid t.token (env.timeNow w.net) with
  | true =>
    obtain ⟨tok, -, hrt⟩ := RoundTrip_of_valid env t req w hv
    rw [hrt]; simp
  | false =>
    cases hg : (t.getToken env w).1 with
    | some err =>
      rw [RoundTrip_of_fetch_error env t req w hv err hg]; simp
    | none =>
      obtain ⟨-, tok, w1, hgt, -, -⟩ := getToken_success env t w hg
      rw [RoundTrip_of_fetch_ok env t req w hv tok w1 hgt]; simp

/-- Every transport `providerConfigure` returns has an endpoint that
`http.NewRequestWithContext` accepts, and holds a credential that was valid when fetched. -/
theorem providerConfigure_endpoint_accepted {σ : Type} (env : Env σ)
    (endpoint username apiKey : String) (w : World σ) (t : transport σ)
    (h : (providerConfigure env endpoint username apiKey w).1 = .ok t) :
    t.Endpoint = endpoint ∧ env.newRequestErr t.Endpoint = none ∧
    ∃ tok, t.token = some tok ∧
      Token.Valid (some tok)
        (env.timeNow (providerConfigure env endpoint username apiKey w).2.net) = true := by
  unfold providerConfigure at h ⊢
  cases hg : (transport.getToken env
      { Endpoint := endpoint, Username := username, APIKey := apiKey, Base := none,
        token := none } w).1 with
  | some err =>
    exfalso
    revert h
    simp only []
    split
    · simp
    · rename_i heq
      rw [heq] at hg
      simp at hg
  | none =>
    obtain ⟨hE, tok, w1, hgt, hval, -⟩ := getToken_success env _ w hg
    simp only [hgt] at h ⊢
    injection h with h
    subst h
    exact ⟨rfl, hE, tok, rfl, hval⟩

/-! ## Issuance exchanges over a sequence of calls -/

/-- The configuration fields of the transport are not touched by `RoundTrip`. -/
theorem RoundTrip_endpoint {σ : Type} (env : Env σ) (t : transport σ) (req : Request)
    (w : World σ) : (t.RoundTrip env req w).2.1.Endpoint = t.Endpoint := by
  cases hv : Token.Valid t.token (env.timeNow w.net) with
  | true =>
    obtain ⟨tok, -, hrt⟩ := RoundTrip_of_valid env t req w hv
    rw [hrt]
  | false =>
    cases hg : (t.getToken env w).1 with
    | some err =>
      rw [RoundTrip_of_fetch_error env t req w hv err hg]
      exact (getToken_config env t w).1
    | none =>
      obtain ⟨-, tok, w1, hgt, -, -⟩ := getToken_success env t w hg
      rw [RoundTrip_of_fetch_ok env t req w hv tok w1 hgt]

/-- A call that finds the held credential valid sends no issuance request and keeps the
transport as it is. -/
theorem RoundTrip_valid_no_issuance {σ : Type} (env : Env σ) (t : transport σ)
    (req : Request) (w : World σ) (hv : Token.Valid t.token (env.timeNow w.net) = true) :
    issuancesSent (t.RoundTrip env req w).2.2.calls = issuancesSent w.calls ∧
    (t.RoundTrip env req w).2.1 = t := by
  obtain ⟨tok, -, hrt⟩ := RoundTrip_of_valid env t req w hv
  rw [hrt]
  simp [issuancesSent_append, issuancesSent]

/-- A call that finds the held credential invalid sends exactly one issuance request,
provided the endpoint is one `http.NewRequestWithContext` accepts. -/
theorem RoundTrip_invalid_one_issuance {σ : Type} (env : Env σ) (t : transport σ)
    (req : Request) (w : World σ) (hv : Token.Valid t.token (env.timeNow w.net) = false)
    (hE : env.newRequestErr t.Endpoint = none) :
    issuancesSent (t.RoundTrip env req w).2.2.calls =
      issuancesSent w.calls ++ [t.issuanceRequest env] := by
  cases hg : (t.getToken env w).1 with
  | some err =>
    rw [RoundTrip_of_fetch_error env t req w hv err hg, (getToken_calls env t w).1 hE]
    simp [issuancesSent_append, issuancesSent]
  | none =>
    obtain ⟨-, tok, w1, hgt, -, hcalls⟩ := getToken_success env t w hg
    rw [RoundTrip_of_fetch_ok env t req w hv tok w1 hgt]
    simp [hcalls, issuancesSent_append, issuancesSent]

/-- Every call of a sequence sends no issuance request when it finds the held credential
valid and exactly one when it finds it invalid. -/
theorem runCalls_issued {σ : Type} (env : Env σ) (steps : List (Step σ)) :
    ∀ (t : transport σ) (w : World σ), env.newRequestErr t.Endpoint = none →
      ∀ o ∈ (runCalls env steps t w).1,
        (o.heldValid = true → o.issued = 0) ∧ (o.heldValid = false → o.issued = 1) := by
  induction steps with
  | nil => intro t w _ o ho; simp [runCalls] at ho
  | cons s rest ih =>
    intro t w hE o ho
    simp only [runCalls, List.mem_cons] at ho
    rcases ho with rfl | ho
    · constructor
      · intro hv
        simp only at hv
        have h := (RoundTrip_valid_no_issuance env t s.req
          { net := s.advance w.net, calls := w.calls } hv).1
        simp only [h]
        simp
      · intro hv
        simp only at hv
        have h := RoundTrip_invalid_one_issuance env t s.req
          { net := s.advance w.net, calls := w.calls } hv hE
        simp only [h]
        simp
    · exact ih _ _ (by rw [RoundTrip_endpoint]; exact hE) o ho

/-- While the transport holds a credential with a non-empty access value, no call that
begins at least ten seconds before its expiry, or at any time when it has no expiry, sends
an issuance request, as long as the clock read at the start of successive calls does not
run backwards. -/
theorem runCalls_before_expiry {σ : Type} (env : Env σ) (tok : Token)
    (hne : tok.AccessToken ≠ "") (steps : List (Step σ)) :
    ∀ (t : transport σ) (w : World σ), t.token = some tok →
      (((runCalls env steps t w).1).map Obs.now).Pairwise (fun a b => a ≤ b) →
      ∀ o ∈ (runCalls env steps t w).1,
        (tok.Expiry = 0 ∨ o.now + 10 ≤ tok.Expiry) → o.issued = 0 := by
  induction steps with
  | nil => intro t w _ _ o ho; simp [runCalls] at ho
  | cons s rest ih =>
    intro t w ht hp o ho hlt
    simp only [runCalls, List.map_cons, List.pairwise_cons] at hp
    simp only [runCalls, List.mem_cons] at ho
    obtain ⟨hle, hp⟩ := hp
    by_cases hnow : tok.Expiry = 0 ∨ env.timeNow (s.advance w.net) + 10 ≤ tok.Expiry
    · have hv : Token.Valid t.token (env.timeNow (s.advance w.net)) = true := by
        rw [ht]
        exact (Token.Valid_some tok _).2 ⟨hne, hnow⟩
      obtain ⟨hi, hsame⟩ := RoundTrip_valid_no_issuance env t s.req
        { net := s.advance w.net, calls := w.calls } hv
      rcases ho with rfl | ho
      · simp only [hi]
        simp
      · refine ih _ _ ?_ hp o ho hlt
        rw [hsame]
        exact ht
    · rcases ho with rfl | ho
      · exact absurd hlt hnow
      · have := hle o.now (List.mem_map_of_mem Obs.now ho)
        simp only at this
        exfalso
        apply hnow
        rcases hlt with h0 | h1
        · exact Or.inl h0
        · exact Or.inr (by omega)

/-- C4 fails on the code: no credential is held at time 0, the first call refreshes and
holds `freshToken`, which expires at 1000; the later call that begins at time 995, before
that expiry, finds the credential invalid and performs an issuance exchange. -/
theorem RoundTrip_refreshes_within_ten_seconds_of_expiry :
    Token.Valid (scenarioTransport none).token ((scenarioEnv 200 "fresh").timeNow (0 : Nat)) =
      false ∧
    ((scenarioTransport none).getToken (scenarioEnv 200 "fresh")
        { net := 0, calls := [] }).1 = none ∧
    ((scenarioTransport none).RoundTrip (scenarioEnv 200 "fresh") scenarioRequest
        { net := 0, calls := [] }).2.1.token = some freshToken ∧
    (runCalls (scenarioEnv 200 "fresh") scenarioLate
        ((scenarioTransport none).RoundTrip (scenarioEnv 200 "fresh") scenarioRequest
          { net := 0, calls := [] }).2.1
        ((scenarioTransport none).RoundTrip (scenarioEnv 200 "fresh") scenarioRequest
          { net := 0, calls := [] }).2.2).1 =
      [{ now := 995, heldValid := false, issued := 1 }] ∧
    ¬ (∀ o ∈ (runCalls (scenarioEnv 200 "fresh") scenarioLate
        ((scenarioTransport none).RoundTrip (scenarioEnv 200 "fresh") scenarioRequest
          { net := 0, calls := [] }).2.1
        ((scenarioTransport none).RoundTrip (scenarioEnv 200 "fresh") scenarioRequest
          { net := 0, calls := [] }).2.2).1,
      o.now < freshToken.Expiry → o.issued = 0) := by
  decide

/-- C4 as amended: in every sequence of `RoundTrip` calls on one transport, a call that finds
the held credential invalid performs exactly one issuance exchange and a call that finds it
valid performs none; and after a call whose refresh succeeded, every later call that begins
at least ten seconds before the expiry of the new credential, or at any time when the new
credential has no expiry, performs no issuance exchange (the clock read at the start of
successive calls not running backwards). -/
theorem RoundTrip_issuance_per_call {σ : Type} (env : Env σ) (t : transport σ) (w : World σ)
    (steps : List (Step σ)) (hE : env.newRequestErr t.Endpoint = none) :
    (∀ o ∈ (runCalls env steps t w).1,
      (o.heldValid = false → o.issued = 1) ∧ (o.heldValid = true → o.issued = 0)) ∧
    (∀ (req : Request) (tok : Token) (later : List (Step σ)),
      Token.Valid t.token (env.timeNow w.net) = false →
      (t.getToken env w).1 = none →
      (t.RoundTrip env req w).2.1.token = some tok →
      (((runCalls env later (t.RoundTrip env req w).2.1 (t.RoundTrip env req w).2.2).1).map
        Obs.now).Pairwise (fun a b => a ≤ b) →
      ∀ o ∈ (runCalls env later (t.RoundTrip env req w).2.1 (t.RoundTrip env req w).2.2).1,
        (tok.Expiry = 0 ∨ o.now + 10 ≤ tok.Expiry) → o.issued = 0) := by
  refine ⟨fun o ho => ⟨(runCalls_issued env steps t w hE o ho).2,
    (runCalls_issued env steps t w hE o ho).1⟩, ?_⟩
  intro req tok later hv hg htok hp o ho hlt
  obtain ⟨-, tok1, w1, hgt, hval, -⟩ := getToken_success env t w hg
  have hrt := RoundTrip_of_fetch_ok env t req w hv tok1 w1 hgt
  have htk : tok1 = tok := by
    rw [hrt] at htok
    simpa using htok
  subst htk
  have hne : tok1.AccessToken ≠ "" := ((Token.Valid_some tok1 _).1 hval).1
  exact runCalls_before_expiry env tok1 hne later _ _ htok hp o ho hlt

/-! ## Scenarios of the transport -/

/-- C5, at a failing input: the transport holds `oldToken`, expired at time 100; at time 200
the issuer answers 200 with a body that decodes to `staleToken`, expired at time 150.
`getToken` returns the error `could not get a valid token`, and the held credential is no
longer the one held before the call but the rejected `staleToken`. -/
theorem getToken_error_replaces_held_credential :
    ((scenarioTransport (some oldToken)).getToken (scenarioEnv 200 "stale")
        { net := 200, calls := [] }).1 = some (errorsNew "could not get a valid token") ∧
    ((scenarioTransport (some oldToken)).getToken (scenarioEnv 200 "stale")
        { net := 200, calls := [] }).2.1.token = some staleToken ∧
    ((scenarioTransport (some oldToken)).getToken (scenarioEnv 200 "stale")
        { net := 200, calls := [] }).2.1.token ≠ (scenarioTransport (some oldToken)).token := by
  decide

/-- A consequence of the same assignment order: no credential is held, the issuer answers
200 with the body `mistyped`, and `getToken` fails with the decoding error; the call after
it finds a credential that passes the validity check, performs no issuance exchange and
forwards the request with the credential of the failed fetch. -/
theorem RoundTrip_after_failed_fetch_uses_its_credential :
    ((scenarioTransport none).RoundTrip (scenarioEnv 200 "mistyped") scenarioRequest
        { net := 0, calls := [] }).1 =
      .ret (.error (errorsNew
        "json: cannot unmarshal number into Go struct field of type string")) ∧
    (runCalls (scenarioEnv 200 "mistyped") scenarioSteps (scenarioTransport none)
        { net := 0, calls := [] }).1 =
      [{ now := 0, heldValid := false, issued := 1 },
       { now := 6, heldValid := true, issued := 0 },
       { now := 2000, heldValid := false, issued := 1 }] :=
  ⟨rfl, by decide⟩

/-- The held credential after `getToken`, for every path: it is untouched when the call
returns before line 142 (request not built, transport error, unreadable body, status other
than 200), and it is the record the body was decoded into in every other case, whether or
not decoding or the validity check then fails. -/
theorem getToken_held_after {σ : Type} (env : Env σ) (t : transport σ) (w : World σ) :
    (t.getToken env w).2.1.token = t.token ∨
    ∃ resp body, (t.base env (t.issuanceRequest env) w.net).1 = .ok resp ∧
      resp.Body = .ok body ∧ resp.StatusCode = 200 ∧
      (t.getToken env w).2.1.token = some (env.jsonUnmarshal body Token.zero).1 := by
  rcases getToken_cases env t w with ⟨err, -, h⟩ | ⟨-, w1, -, h⟩
  · left; simp [h]
  · rcases h with ⟨err, -, h⟩ | ⟨resp, hr, ⟨err, -, h⟩ | ⟨body, hb, ⟨-, h⟩ | ⟨hs, tok, htok, h⟩⟩⟩
    · left; simp [h]
    · left; simp [h]
    · left; simp [h]
    · right
      refine ⟨resp, body, hr, hb, hs, ?_⟩
      rcases h with ⟨err, -, h⟩ | ⟨-, -, h⟩ | ⟨-, -, h⟩ <;> simp [h, htok]

/-- Witness of C2: the transport holds `freshToken` at time 10 and the remote answers 401.
The request is forwarded once with the header `Bearer abc`, and the 401 answer is what
`RoundTrip` returns. -/
theorem RoundTrip_delivers_authenticated_once_witness :
    originalsSent ((scenarioTransport (some freshToken)).RoundTrip (scenarioEnv 200 "fresh")
        scenarioRequest { net := 10, calls := [] }).2.2.calls ≠ originalsSent [] ∧
    ((scenarioTransport (some freshToken)).RoundTrip (scenarioEnv 200 "fresh")
        scenarioRequest { net := 10, calls := [] }).2.2.calls = [Sent.original scenarioAuthed] ∧
    ∃ (tok : Token) (w1 : World Nat),
      ((scenarioTransport (some freshToken)).RoundTrip (scenarioEnv 200 "fresh")
        scenarioRequest { net := 10, calls := [] }).2.1.token = some tok ∧
      ((Token.Valid (scenarioTransport (some freshToken)).token
            ((scenarioEnv 200 "fresh").timeNow (10 : Nat)) = true ∧
          (scenarioTransport (some freshToken)).token = some tok ∧
          w1 = { net := 10, calls := [] }) ∨
       (Token.Valid (scenarioTransport (some freshToken)).token
            ((scenarioEnv 200 "fresh").timeNow (10 : Nat)) = false ∧
          (scenarioTransport (some freshToken)).getToken (scenarioEnv 200 "fresh")
              { net := 10, calls := [] } =
            (none, { scenarioTransport (some freshToken) with token := some tok }, w1) ∧
          Token.Valid (some tok) ((scenarioEnv 200 "fresh").timeNow w1.net) = true)) :=
  ⟨by decide, by decide,
    (RoundTrip_delivers_authenticated_once (scenarioEnv 200 "fresh")
      (scenarioTransport (some freshToken)) scenarioRequest { net := 10, calls := [] }
      (by decide)).imp
      (fun _ h => h.imp (fun _ h2 => ⟨h2.1, h2.2.1⟩))⟩

/-- Witness of C3: no credential is held and the issuer answers 401 with the body
`bad creds`. -/
theorem RoundTrip_issuance_rejected_witness :
    Token.Valid (scenarioTransport none).token
        ((scenarioEnv 401 "bad creds").timeNow (0 : Nat)) = false ∧
    (∃ err : GoError,
      ((scenarioTransport none).RoundTrip (scenarioEnv 401 "bad creds") scenarioRequest
          { net := 0, calls := [] }).1 = .ret (.error err) ∧
      err.Error = "bad creds" ∧
      ((scenarioTransport none).getToken (scenarioEnv 401 "bad creds")
          { net := 0, calls := [] }).1 = some err ∧
      ((scenarioTransport none).RoundTrip (scenarioEnv 401 "bad creds") scenarioRequest
          { net := 0, calls := [] }).2.2.calls =
        [] ++ [Sent.issuance ((scenarioTransport none).issuanceRequest
          (scenarioEnv 401 "bad creds"))] ∧
      originalsSent ((scenarioTransport none).RoundTrip (scenarioEnv 401 "bad creds")
          scenarioRequest { net := 0, calls := [] }).2.2.calls = originalsSent [] ∧
      ((scenarioTransport none).RoundTrip (scenarioEnv 401 "bad creds") scenarioRequest
          { net := 0, calls := [] }).2.1.token = (scenarioTransport none).token) :=
  ⟨by decide,
    RoundTrip_issuance_rejected (scenarioEnv 401 "bad creds") (scenarioTransport none)
      scenarioRequest { net := 0, calls := [] }
      { StatusCode := 401, Body := .ok "bad creds" } "bad creds"
      (by decide) rfl rfl (by decide) rfl⟩

/-- Witness of C4: starting without a credential at time 0, three calls are made.  The
first refreshes (one issuance exchange), the second begins at time 7, more than ten
seconds before the expiry 1000, and performs none, the third begins at time 2000 and
refreshes again. -/
theorem RoundTrip_issuance_per_call_witness :
    (scenarioEnv 200 "fresh").newRequestErr (scenarioTransport none).Endpoint = none ∧
    (runCalls (scenarioEnv 200 "fresh") scenarioSteps (scenarioTransport none)
        { net := 0, calls := [] }).1 =
      [{ now := 0, heldValid := false, issued := 1 },
       { now := 7, heldValid := true, issued := 0 },
       { now := 2000, heldValid := false, issued := 1 }] ∧
    (∀ o ∈ (runCalls (scenarioEnv 200 "fresh") scenarioSteps (scenarioTransport none)
        { net := 0, calls := [] }).1,
      (o.heldValid = false → o.issued = 1) ∧ (o.heldValid = true → o.issued = 0)) ∧
    (∀ o ∈ (runCalls (scenarioEnv 200 "fresh") scenarioSteps.tail
        ((scenarioTransport none).RoundTrip (scenarioEnv 200 "fresh") scenarioRequest
          { net := 0, calls := [] }).2.1
        ((scenarioTransport none).RoundTrip (scenarioEnv 200 "fresh") scenarioRequest
          { net := 0, calls := [] }).2.2).1,
      (freshToken.Expiry = 0 ∨ o.now + 10 ≤ freshToken.Expiry) → o.issued = 0) :=
  ⟨rfl, by decide,
    (RoundTrip_issuance_per_call (scenarioEnv 200 "fresh") (scenarioTransport none)
      { net := 0, calls := [] } scenarioSteps rfl).1,
    (RoundTrip_issuance_per_call (scenarioEnv 200 "fresh") (scenarioTransport none)
      { net := 0, calls := [] } scenarioSteps rfl).2 scenarioRequest freshToken
      scenarioSteps.tail (by decide) (by decide) (by decide) (by decide)⟩

/-! ## Properties of the playlist resource -/

/-- The map `validTimeRanges` holds exactly the three recognized values. -/
theorem mapIndex_validTimeRanges (timeRange : String) :
    mapIndex validTimeRanges timeRange = true ↔
      timeRange = "short_term" ∨ timeRange = "medium_term" ∨ timeRange = "long_term" := by
  unfold mapIndex validTimeRanges
  by_cases h1 : timeRange = "short_term"
  · simp [h1, List.lookup]
  · by_cases h2 : timeRange = "medium_term"
    · subst h2
      simp [List.lookup]
    · by_cases h3 : timeRange = "long_term"
      · subst h3
        simp [List.lookup]
      · have e1 : (timeRange == "short_term") = false := by simpa using h1
        have e2 : (timeRange == "medium_term") = false := by simpa using h2
        have e3 : (timeRange == "long_term") = false := by simpa using h3
        simp [List.lookup, h1, h2, h3, e1, e2, e3]

/-- For a recognized time range the `switch` makes the top-tracks call with that range. -/
theorem switchTimeRange_of_valid {ρ : Type} (client : Client ρ) (timeRange : String)
    (trackCount : Int) (r : Remote ρ)
    (hv : timeRange = "short_term" ∨ timeRange = "medium_term" ∨ timeRange = "long_term") :
    switchTimeRange client timeRange trackCount r =
      match client.topTracks trackCount timeRange r with
      | (.ok page, r1) => (some page, none, r1)
      | (.error err, r1) => (none, some err, r1) := by
  rcases hv with h | h | h <;> subst h <;> simp [switchTimeRange]

/-- The diagnostics built from a wrapped error: one error diagnostic whose summary is the
stage text followed by the text of the underlying error, which `Unwrap` gives back. -/
theorem diagFromErr_errorfW (pre : String) (err : GoError) :
    diagFromErr (errorfW pre err) =
      [{ Severity := Severity.Error, Summary := pre ++ err.Error, Detail := "" }] ∧
    (errorfW pre err).Unwrap = some err := ⟨rfl, rfl⟩

/-- C6: when `time_range` is none of the three recognized values, Create returns one error
diagnostic naming the invalid time range, makes no call on the client (the remote and its
call log are as before) and leaves the resource data, identity included, as it was. -/
theorem Create_rejects_unknown_time_range {ρ : Type} (client : Client ρ) (d : ResourceData)
    (r : Remote ρ)
    (h : d.time_range ≠ "short_term" ∧ d.time_range ≠ "medium_term" ∧
      d.time_range ≠ "long_term") :
    (resourceSpotifyPlaylistCreate client d r).1 =
      .ret [{ Severity := Severity.Error,
              Summary := "invalid time range: " ++ d.time_range, Detail := "" }] ∧
    (resourceSpotifyPlaylistCreate client d r).2.1 = d ∧
    (resourceSpotifyPlaylistCreate client d r).2.2 = r ∧
    (resourceSpotifyPlaylistCreate client d r).2.2.calls = r.calls := by
  have hm : mapIndex validTimeRanges d.time_range = false := by
    cases hc : mapIndex validTimeRanges d.time_range with
    | false => rfl
    | true =>
      rcases (mapIndex_validTimeRanges d.time_range).1 hc with h1 | h1 | h1
      · exact absurd h1 h.1
      · exact absurd h1 h.2.1
      · exact absurd h1 h.2.2
  simp [resourceSpotifyPlaylistCreate, hm, diagFromErr, errorfPreS, GoError.Error]

/-- Witness of C6: the time range `invalid_value`, on a remote where every call would
succeed. -/
theorem Create_rejects_unknown_time_range_witness :
    (resourceSpotifyPlaylistCreate (scenarioClient [])
        { scenarioDesired with time_range := "invalid_value" } scenarioRemote).1 =
      .ret [{ Severity := Severity.Error,
              Summary := "invalid time range: invalid_value", Detail := "" }] ∧
    (resourceSpotifyPlaylistCreate (scenarioClient [])
        { scenarioDesired with time_range := "invalid_value" } scenarioRemote).2.1.Id = "" ∧
    (resourceSpotifyPlaylistCreate (scenarioClient [])
        { scenarioDesired with time_range := "invalid_value" } scenarioRemote).2.2.calls = [] := by
  have h := Create_rejects_unknown_time_range (scenarioClient [])
    { scenarioDesired with time_range := "invalid_value" } scenarioRemote (by decide)
  refine ⟨h.1, ?_, h.2.2.2⟩
  rw [h.2.1]
  rfl

/-- C7: for a recognized time range, when the four calls succeed (top tracks `page`, user
`user`, created playlist `playlist`), Create makes exactly these four calls in this order:
top tracks with the desired count and range, current user, create-playlist for `user.ID`
with the desired name, description and visibility, and one add-tracks call for
`playlist.ID` carrying the identifiers of `page.Tracks` in their order; it returns no
diagnostics and sets the resource identity to `playlist.ID`. -/
theorem Create_success {ρ : Type} (client : Client ρ) (d : ResourceData) (r : Remote ρ)
    (page : FullTrackPage) (user : PrivateUser) (playlist : FullPlaylist) (snapshot : String)
    (s1 s2 s3 s4 : ρ)
    (hv : d.time_range = "short_term" ∨ d.time_range = "medium_term" ∨
      d.time_range = "long_term")
    (h1 : client.CurrentUsersTopTracks d.track_count d.time_range r.state = (.ok page, s1))
    (h2 : client.CurrentUser s1 = (.ok user, s2))
    (h3 : client.CreatePlaylistForUser user.ID d.name d.description d.isPublic false s2 =
      (.ok playlist, s3))
    (h4 : client.AddTracksToPlaylist playlist.ID (page.Tracks.map (fun track => track.ID)) s3 =
      (.ok snapshot, s4)) :
    resourceSpotifyPlaylistCreate client d r =
      (.ret [], { d with Id := playlist.ID },
        { state := s4,
          calls := r.calls ++
            [ApiCall.topTracks d.track_count d.time_range,
             ApiCall.currentUser,
             ApiCall.createPlaylist user.ID d.name d.description d.isPublic false,
             ApiCall.addTracks playlist.ID (page.Tracks.map (fun track => track.ID))] }) ∧
    (page.Tracks.map (fun track => track.ID)).length = page.Tracks.length := by
  have hm : mapIndex validTimeRanges d.time_range = true :=
    (mapIndex_validTimeRanges d.time_range).2 hv
  refine ⟨?_, by simp⟩
  simp [resourceSpotifyPlaylistCreate, hm, switchTimeRange_of_valid client _ _ r hv,
    Client.topTracks, h1, Client.currentUser, h2, Client.createPlaylist, h3,
    Client.addTracks, h4]

/-- Witness of C7: the end-to-end scenario.  Twenty tracks, user `u1`, playlist `p1`: the
identity becomes `p1` and the one add-tracks call carries `t1` to `t20` in order. -/
theorem Create_success_witness :
    resourceSpotifyPlaylistCreate (scenarioClient []) scenarioDesired scenarioRemote =
      (.ret [], { scenarioDesired with Id := "p1" },
        { state := (),
          calls := [ApiCall.topTracks 20 "short_term",
                    ApiCall.currentUser,
                    ApiCall.createPlaylist "u1" "Top20" "" true false,
                    ApiCall.addTracks "p1" scenarioTrackIDs] }) ∧
    scenarioTrackIDs.length = 20 :=
  ⟨(Create_success (scenarioClient []) scenarioDesired scenarioRemote
      { Tracks := scenarioTracks } { ID := "u1" }
      { ID := "p1", Name := "Top20", Description := "", IsPublic := true } "snapshot"
      () () () () (by decide) rfl rfl rfl rfl).1, by decide⟩

/-- C8: for a recognized time range, when one of the four calls of Create fails with `err`
after the earlier ones succeeded, Create makes none of the later calls (the log ends with
the failed call), returns the diagnostics of `err` wrapped with the text of the failed
stage, and leaves the resource data, identity included, as it was; this holds in
particular when create-playlist succeeded and add-tracks failed.  The last part states
what the returned diagnostics are: the stage text followed by the text of `err`. -/
theorem Create_stage_failure {ρ : Type} (client : Client ρ) (d : ResourceData) (r : Remote ρ)
    (hv : d.time_range = "short_term" ∨ d.time_range = "medium_term" ∨
      d.time_range = "long_term") :
    (∀ (err : GoError) (s1 : ρ),
      client.CurrentUsersTopTracks d.track_count d.time_range r.state = (.error err, s1) →
      resourceSpotifyPlaylistCreate client d r =
        (.ret (diagFromErr (errorfW "failed to fetch top tracks: " err)), d,
          { state := s1,
            calls := r.calls ++ [ApiCall.topTracks d.track_count d.time_range] })) ∧
    (∀ (page : FullTrackPage) (s1 : ρ) (err : GoError) (s2 : ρ),
      client.CurrentUsersTopTracks d.track_count d.time_range r.state = (.ok page, s1) →
      client.CurrentUser s1 = (.error err, s2) →
      resourceSpotifyPlaylistCreate client d r =
        (.ret (diagFromErr (errorfW "failed to fetch current user: " err)), d,
          { state := s2,
            calls := r.calls ++ [ApiCall.topTracks d.track_count d.time_range,
                                 ApiCall.currentUser] })) ∧
    (∀ (page : FullTrackPage) (s1 : ρ) (user : PrivateUser) (s2 : ρ) (err : GoError) (s3 : ρ),
      client.CurrentUsersTopTracks d.track_count d.time_range r.state = (.ok page, s1) →
      client.CurrentUser s1 = (.ok user, s2) →
      client.CreatePlaylistForUser user.ID d.name d.description d.isPublic false s2 =
        (.error err, s3) →
      resourceSpotifyPlaylistCreate client d r =
        (.ret (diagFromErr (errorfW "failed to create playlist: " err)), d,
          { state := s3,
            calls := r.calls ++ [ApiCall.topTracks d.track_count d.time_range,
                                 ApiCall.currentUser,
                                 ApiCall.createPlaylist user.ID d.name d.description
                                   d.isPublic false] })) ∧
    (∀ (page : FullTrackPage) (s1 : ρ) (user : PrivateUser) (s2 : ρ) (playlist : FullPlaylist)
        (s3 : ρ) (err : GoError) (s4 : ρ),
      client.CurrentUsersTopTracks d.track_count d.time_range r.state = (.ok page, s1) →
      client.CurrentUser s1 = (.ok user, s2) →
      client.CreatePlaylistForUser user.ID d.name d.description d.isPublic false s2 =
        (.ok playlist, s3) →
      client.AddTracksToPlaylist playlist.ID (page.Tracks.map (fun track => track.ID)) s3 =
        (.error err, s4) →
      resourceSpotifyPlaylistCreate client d r =
        (.ret (diagFromErr (errorfW "failed to add tracks to playlist: " err)), d,
          { state := s4,
            calls := r.calls ++ [ApiCall.topTracks d.track_count d.time_range,
                                 ApiCall.currentUser,
                                 ApiCall.createPlaylist user.ID d.name d.description
                                   d.isPublic false,
                                 ApiCall.addTracks playlist.ID
                                   (page.Tracks.map (fun track => track.ID))] })) ∧
    (∀ (stage : String) (err : GoError),
      diagFromErr (errorfW stage err) =
        [{ Severity := Severity.Error, Summary := stage ++ err.Error, Detail := "" }] ∧
      (errorfW stage err).Unwrap = some err) := by
  have hm : mapIndex validTimeRanges d.time_range = true :=
    (mapIndex_validTimeRanges d.time_range).2 hv
  refine ⟨?_, ?_, ?_, ?_, fun stage err => diagFromErr_errorfW stage err⟩
  · intro err s1 h1
    simp [resourceSpotifyPlaylistCreate, hm, switchTimeRange_of_valid client _ _ r hv,
      Client.topTracks, h1]
  · intro page s1 err s2 h1 h2
    simp [resourceSpotifyPlaylistCreate, hm, switchTimeRange_of_valid client _ _ r hv,
      Client.topTracks, h1, Client.currentUser, h2]
  · intro page s1 user s2 err s3 h1 h2 h3
    simp [resourceSpotifyPlaylistCreate, hm, switchTimeRange_of_valid client _ _ r hv,
      Client.topTracks, h1, Client.currentUser, h2, Client.createPlaylist, h3]
  · intro page s1 user s2 playlist s3 err s4 h1 h2 h3 h4
    simp [resourceSpotifyPlaylistCreate, hm, switchTimeRange_of_valid client _ _ r hv,
      Client.topTracks, h1, Client.currentUser, h2, Client.createPlaylist, h3,
      Client.addTracks, h4]

/-- Witness of C8: create-playlist succeeds with playlist `p1` and add-tracks then fails.
Create reports the add-tracks stage with the text of the remote error, and the identity
stays unset. -/
theorem Create_stage_failure_witness :
    (resourceSpotifyPlaylistCreate (scenarioClient ["add-tracks"]) scenarioDesired
        scenarioRemote).1 =
      .ret [{ Severity := Severity.Error,
              Summary := "failed to add tracks to playlist: Internal server error",
              Detail := "" }] ∧
    (resourceSpotifyPlaylistCreate (scenarioClient ["add-tracks"]) scenarioDesired
        scenarioRemote).2.1.Id = "" ∧
    (resourceSpotifyPlaylistCreate (scenarioClient ["add-tracks"]) scenarioDesired
        scenarioRemote).2.2.calls =
      [ApiCall.topTracks 20 "short_term", ApiCall.currentUser,
       ApiCall.createPlaylist "u1" "Top20" "" true false,
       ApiCall.addTracks "p1" scenarioTrackIDs] := by
  have h := (Create_stage_failure (scenarioClient ["add-tracks"]) scenarioDesired
    scenarioRemote (by decide)).2.2.2.1 { Tracks := scenarioTracks } () { ID := "u1" } ()
    { ID := "p1", Name := "Top20", Description := "", IsPublic := true } () serverError ()
    rfl rfl rfl rfl
  rw [h]
  exact ⟨rfl, rfl, rfl⟩

/-- Create never dereferences a nil pointer: the `switch` always assigns `topTracks` or
`err` once the time range has passed the map check. -/
theorem Create_returns {ρ : Type} (client : Client ρ) (d : ResourceData) (r : Remote ρ) :
    (resourceSpotifyPlaylistCreate client d r).1 ≠ Outcome.nilDeref := by
  cases hm : mapIndex validTimeRanges d.time_range with
  | false => simp [resourceSpotifyPlaylistCreate, hm]
  | true =>
    have hv := (mapIndex_validTimeRanges d.time_range).1 hm
    rcases h1 : client.CurrentUsersTopTracks d.track_count d.time_range r.state with
      ⟨err | page, s1⟩
    · simp [resourceSpotifyPlaylistCreate, hm, switchTimeRange_of_valid client _ _ r hv,
        Client.topTracks, h1]
    · rcases h2 : client.CurrentUser s1 with ⟨err | user, s2⟩
      · simp [resourceSpotifyPlaylistCreate, hm, switchTimeRange_of_valid client _ _ r hv,
          Client.topTracks, h1, Client.currentUser, h2]
      · rcases h3 : client.CreatePlaylistForUser user.ID d.name d.description d.isPublic
            false s2 with ⟨err | playlist, s3⟩
        · simp [resourceSpotifyPlaylistCreate, hm, switchTimeRange_of_valid client _ _ r hv,
            Client.topTracks, h1, Client.currentUser, h2, Client.createPlaylist, h3]
        · rcases h4 : client.AddTracksToPlaylist playlist.ID
              (page.Tracks.map (fun track => track.ID)) s3 with ⟨err | snapshot, s4⟩
          · simp [resourceSpotifyPlaylistCreate, hm, switchTimeRange_of_valid client _ _ r hv,
              Client.topTracks, h1, Client.currentUser, h2, Client.createPlaylist, h3,
              Client.addTracks, h4]
          · simp [resourceSpotifyPlaylistCreate, hm, switchTimeRange_of_valid client _ _ r hv,
              Client.topTracks, h1, Client.currentUser, h2, Client.createPlaylist, h3,
              Client.addTracks, h4]

/-- C9 fails on the code: for the resource `gone`, whose playlist the remote answers 404
for, Read returns an error diagnostic and the identity is still `gone`, not cleared. -/
theorem Read_not_found_keeps_identity :
    (resourceSpotifyPlaylistRead (scenarioClient []) { scenarioDesired with Id := "gone" }
        scenarioRemote).2.1.Id = "gone" ∧
    (resourceSpotifyPlaylistRead (scenarioClient []) { scenarioDesired with Id := "gone" }
        scenarioRemote).1 =
      [{ Severity := Severity.Error, Summary := "failed to fetch playlist: Not found.",
         Detail := "" }] ∧
    ¬ ((resourceSpotifyPlaylistRead (scenarioClient []) { scenarioDesired with Id := "gone" }
          scenarioRemote).2.1.Id = "" ∧
       (resourceSpotifyPlaylistRead (scenarioClient []) { scenarioDesired with Id := "gone" }
          scenarioRemote).1 = []) := by
  decide

/-- C9 as amended: whenever the fetch-playlist call fails with `err`, not-found included,
Read makes that one call, returns the diagnostics of `err` wrapped with the text
`failed to fetch playlist: `, and leaves the resource data, identity included, as it was;
the status carried by `err` plays no part. -/
theorem Read_error_keeps_identity {ρ : Type} (client : Client ρ) (d : ResourceData)
    (r : Remote ρ) (err : GoError) (s1 : ρ)
    (h : client.GetPlaylist d.Id r.state = (.error err, s1)) :
    resourceSpotifyPlaylistRead client d r =
      ([{ Severity := Severity.Error,
          Summary := "failed to fetch playlist: " ++ err.Error, Detail := "" }], d,
        { state := s1, calls := r.calls ++ [ApiCall.getPlaylist d.Id] }) := by
  simp [resourceSpotifyPlaylistRead, Client.getPlaylist, h, diagFromErr, errorfW,
    GoError.Error]

/-- Witness of the amended C9: the remote answers 404 for the playlist `other`. -/
theorem Read_error_keeps_identity_witness :
    (scenarioClient []).GetPlaylist "other" () = (.error notFound, ()) ∧
    resourceSpotifyPlaylistRead (scenarioClient []) { scenarioDesired with Id := "other" }
        scenarioRemote =
      ([{ Severity := Severity.Error, Summary := "failed to fetch playlist: Not found.",
          Detail := "" }], { scenarioDesired with Id := "other" },
        { state := (), calls := [ApiCall.getPlaylist "other"] }) :=
  ⟨rfl, Read_error_keeps_identity (scenarioClient []) { scenarioDesired with Id := "other" }
    scenarioRemote notFound () rfl⟩

/-- C10: Delete makes exactly one call, the unfollow call for the resource identity.  When
that call succeeds, Delete returns no diagnostics and the identity is empty; when it fails
with `err`, Delete returns the diagnostics of `err` wrapped with the text
`failed to delete playlist: ` and the resource data, identity included, is as before. -/
theorem Delete_clears_identity_only_on_success {ρ : Type} (client : Client ρ)
    (d : ResourceData) (r : Remote ρ) :
    (resourceSpotifyPlaylistDelete client d r).2.2.calls =
      r.calls ++ [ApiCall.unfollowPlaylist d.Id] ∧
    (resourceSpotifyPlaylistDelete client d r).2.2.state =
      (client.UnfollowPlaylist d.Id r.state).2 ∧
    ((client.UnfollowPlaylist d.Id r.state).1 = none ∧
        (resourceSpotifyPlaylistDelete client d r).1 = [] ∧
        (resourceSpotifyPlaylistDelete client d r).2.1 = { d with Id := "" } ∧
        (resourceSpotifyPlaylistDelete client d r).2.1.Id = "" ∨
     ∃ err, (client.UnfollowPlaylist d.Id r.state).1 = some err ∧
        (resourceSpotifyPlaylistDelete client d r).1 =
          diagFromErr (errorfW "failed to delete playlist: " err) ∧
        (resourceSpotifyPlaylistDelete client d r).1 =
          [{ Severity := Severity.Error,
             Summary := "failed to delete playlist: " ++ err.Error, Detail := "" }] ∧
        (errorfW "failed to delete playlist: " err).Unwrap = some err ∧
        (resourceSpotifyPlaylistDelete client d r).2.1 = d ∧
        (resourceSpotifyPlaylistDelete client d r).2.1.Id = d.Id) := by
  cases hu : client.UnfollowPlaylist d.Id r.state with
  | mk e s1 =>
    cases e with
    | none =>
      simp [resourceSpotifyPlaylistDelete, Client.unfollowPlaylist, hu]
    | some err =>
      simp [resourceSpotifyPlaylistDelete, Client.unfollowPlaylist, hu, diagFromErr, errorfW,
        GoError.Error, GoError.Unwrap]

end SpotifyProvider
